import Mathlib

/-!
# Verification of the LoRe-Bench dataset generators

Shallow embedding of the update rules and generator main loops of the
`LoRe-Bench/LoRe-Mono/scripts` dataset generators, together with theorems
settling the specification claims about them.

Each definition is translated directly from the named Python source file.
Python `%` on non-negative operands is `Nat.mod`; Python `%` on possibly
negative integers with a positive modulus is `Int.emod` (both produce a
non-negative residue, like Python).  Python `str(n)` for a natural number
is `toString`/`Nat.repr`.  Python list indexing that is in range in the
source is rendered with `List.getD` (the default is never used on the
in-range indices the code produces).
-/

/-- Python `s.count(c)`: number of occurrences of the character `c` in the
string `s` (from the digit-inventory generator's use of `str.count`). -/
def countChar (s : String) (c : Char) : Nat :=
  s.data.count c

/-- Function `update_inventory` from `code-1-top-digit-inventory4.py` (lines 15-33):
counts of `'0'..'4'` in `s`; on an even step index the four counts of
`'0'..'3'` are emitted as `(c0+1)%5, (c1+2)%5, (c2+1)%5, (c3+1)%5` and on an
odd index as `(c0+2)%5, ((c1+1)%5 if c1>=3 else (2*c1+1)%5), (c2+3)%5,
(c3+1)%5`; the literal count of `'4'` is appended unmodified. -/
def update_inventory (s : String) (i : Nat) : String :=
  let c0 := countChar s '0'
  let c1 := countChar s '1'
  let c2 := countChar s '2'
  let c3 := countChar s '3'
  let c4 := countChar s '4'
  if i % 2 = 0 then
    toString ((c0 + 1) % 5) ++ toString ((c1 + 2) % 5) ++ toString ((c2 + 1) % 5) ++
      toString ((c3 + 1) % 5) ++ toString c4
  else
    toString ((c0 + 2) % 5) ++
      (if c1 ≥ 3 then toString ((c1 + 1) % 5) else toString ((2 * c1 + 1) % 5)) ++
      toString ((c2 + 3) % 5) ++ toString ((c3 + 1) % 5) ++ toString c4

/-- The fixed seed `init_state = "01938"` of `code-1-top-digit-inventory4.py`
(line 44). -/
def inventorySeed : String := "01938"

/-- The state recorded for step `N` by the main loop of
`code-1-top-digit-inventory4.py` (lines 48-53): `inventoryState 0` is the
seed (the state before any update), and loop iteration `i` (0-based) computes
`update_inventory` of the previous state with step index `i`, recording the
result for step `N = i+1`. -/
def inventoryState : Nat → String
  | 0 => inventorySeed
  | n + 1 => update_inventory (inventoryState n) n

/-- Literal embedding of the main loop of `code-1-top-digit-inventory4.py`
(lines 47-53): `updated_state` starts as `None`; iteration `i` takes the
`i == 0` branch (updating the seed) or updates the previous value, and the
pair `(step, updated_state)` with `step = i+1` is recorded.  The first
argument counts the remaining iterations, the second is the current loop
index `i`, the third is `updated_state` (`none` initially, as in the source;
the `getD` default is never used because `prev` is `some _` whenever
`i ≠ 0`). -/
def inventoryLoopAux : Nat → Nat → Option String → List (Nat × String)
  | 0, _, _ => []
  | k + 1, i, prev =>
    let st := if i = 0 then update_inventory inventorySeed i
              else update_inventory (prev.getD inventorySeed) i
    (i + 1, st) :: inventoryLoopAux k (i + 1) (some st)

/-- The `(idx, gt_ans)` pairs produced by running the main loop of
`code-1-top-digit-inventory4.py` for `numStep` iterations. -/
def inventoryLoop (numStep : Nat) : List (Nat × String) :=
  inventoryLoopAux numStep 0 none

/-- The fixed default seed vector of `code-4-top-ducci-mod1000.py`
(`--init_state` default `"11,5,3,16,12,1,5,8,2"`, lines 44-49). -/
def ducciSeed : List Int := [11, 5, 3, 16, 12, 1, 5, 8, 2]

/-- Function `update_ducci` from `code-4-top-ducci-mod1000.py` (lines 15-36):
`y[j] = abs(x[j if j<=2 else 2*j%K] - x[(j + 1 if j<=5 else j-2) % K]) % 1000`
for `j` in `range(K)`, `K = len(x)`.  The step-index parameter of the Python
signature is ignored by the rule and omitted here.  All indices are in
`[0, K)` for `j ∈ range(K)`, so the `getD` defaults are never used. -/
def update_ducci (state : List Int) : List Int :=
  let x := state
  let K := x.length
  (List.range K).map fun j =>
    (Int.ofNat
      ((x.getD (if j ≤ 2 then j else 2 * j % K) 0 -
        x.getD ((if j ≤ 5 then j + 1 else j - 2) % K) 0).natAbs % 1000))

/-- The state recorded for step `N` by the main loop of
`code-4-top-ducci-mod1000.py` (lines 52-58): `N` successive applications of
`update_ducci` to the seed (the rule ignores the step index). -/
def ducciState : Nat → List Int
  | 0 => ducciSeed
  | n + 1 => update_ducci (ducciState n)

/-- Rendering `ANSWER = ''.join(map(str, x))` from `code-4-top-ducci-mod1000.py`
(line 63): the concatenation of the decimal renderings of the components. -/
def ducciAnswer (v : List Int) : String :=
  String.join (v.map toString)

/-- The index-remapped mapping stated by the specification for the 9-element
Ducci instance, written from the spec's words: `y[j] = abs(x[idx1] - x[idx2])
% 1000` where `idx1 = j if j <= 2 else (2*j) % 9` and `idx2 = (j+1) % 9 if
j <= 5 else (j-2) % 9`, for `j` in `0..8`. -/
def ducciRemapSpec (x : List Int) : List Int :=
  (List.range 9).map fun j =>
    (Int.ofNat
      ((x.getD (if j ≤ 2 then j else 2 * j % 9) 0 -
        x.getD (if j ≤ 5 then (j + 1) % 9 else (j - 2) % 9) 0).natAbs % 1000))

/-- The textbook Ducci rule named by the specification for contrast:
`y[j] = abs(x[j] - x[(j+1) % K]) % 1000`. -/
def ducciTextbook (x : List Int) : List Int :=
  (List.range x.length).map fun j =>
    (Int.ofNat ((x.getD j 0 - x.getD ((j + 1) % x.length) 0).natAbs % 1000))

/-- C3: the claim says step 1 of the digit-inventory generator produces an
*8-character* string.  It produces a 5-character string: the counts are
single digits after `% 5` and the literal count of `'4'` in the seed is the
single digit `0`. -/
theorem c3_counterexample :
    update_inventory inventorySeed 0 = "23120" ∧
      (update_inventory inventorySeed 0).length = 5 ∧
      (update_inventory inventorySeed 0).length ≠ 8 := by
  refine ⟨by decide, by decide, by decide⟩

/-- C3 (amended): with seed `"01938"`, step 1 of the digit-inventory
generator (loop index `i = 0`, even branch of `update_inventory`) produces a
*5-character* string consisting of the counts of `'0','1','2','3'` in the
seed, each taken mod 5 with the additive offsets `+1,+2,+1,+1` respectively,
with the literal count of `'4'` appended unmodified. -/
theorem c3_step1_even_branch :
    update_inventory inventorySeed 0 =
      toString ((countChar inventorySeed '0' + 1) % 5) ++
        toString ((countChar inventorySeed '1' + 2) % 5) ++
        toString ((countChar inventorySeed '2' + 1) % 5) ++
        toString ((countChar inventorySeed '3' + 1) % 5) ++
        toString (countChar inventorySeed '4') ∧
      update_inventory inventorySeed 0 = "23120" ∧
      (update_inventory inventorySeed 0).length = 5 := by
  refine ⟨by decide, by decide, by decide⟩

/-- C4: one application of `update_ducci` to the 9-element seed
`[11,5,3,16,12,1,5,8,2]` realizes the index-remapped mapping
`y[j] = abs(x[idx1] - x[idx2]) % 1000` with `idx1 = j if j <= 2 else (2*j)%9`
and `idx2 = (j+1)%9 if j <= 5 else (j-2)%9`, and differs from the textbook
Ducci rule `y[j] = abs(x[j] - x[(j+1)%9]) % 1000` on that seed. -/
theorem c4_ducci_remap :
    update_ducci ducciSeed = ducciRemapSpec ducciSeed ∧
      update_ducci ducciSeed = [6, 2, 13, 7, 1, 0, 4, 0, 3] ∧
      update_ducci ducciSeed ≠ ducciTextbook ducciSeed := by
  refine ⟨by decide, by decide, by decide⟩

/-- Function `update_rule90` from `code-3-top-rule90.py` (lines 15-31): each output
bit is the XOR of the two ring neighbours; Python `(i - 1) % L` on
`i ∈ range(L)` (which is `L - 1` at `i = 0`) is rendered as
`(i + L - 1) % L`.  The indices are in `[0, L)`, so the `getD` defaults are
never used. -/
def rule90Cell (b : String) (i : Nat) : Char :=
  let L := b.data.length
  let left : Nat := if b.data.getD ((i + L - 1) % L) '0' = '1' then 1 else 0
  let right : Nat := if b.data.getD ((i + 1) % L) '0' = '1' then 1 else 0
  if left ^^^ right ≠ 0 then '1' else '0'

def update_rule90 (b : String) : String :=
  String.mk <| (List.range b.data.length).map (rule90Cell b)

/-- The fixed seed `init_state = "0101011101001"` of `code-3-top-rule90.py`
(line 42). -/
def rule90Seed : String := "0101011101001"

/-- The state recorded for step `N` by the main loop of
`code-3-top-rule90.py` (lines 46-51): `N` successive applications of
`update_rule90` to the seed (the rule takes no step index). -/
def rule90State : Nat → String
  | 0 => rule90Seed
  | n + 1 => update_rule90 (rule90State n)

/-- Function `update_affine2d` from `code-5-top-affine2d.py` (lines 15-28):
`x' = (2*x + y + 5 + t) % 200`, `y' = (3*x + y + 7) % 200`,
`t' = (t + 1) % 200`; Python `%` with positive modulus is `Int.emod`. -/
def update_affine2d (state : Int × Int × Int) : Int × Int × Int :=
  let x := state.1
  let y := state.2.1
  let t := state.2.2
  ((2 * x + y + 5 + t) % 200, (3 * x + y + 7) % 200, (t + 1) % 200)

/-- The loop of `inventoryLoopAux` agrees with the pure recursion
`inventoryState`: starting at loop index `i` carrying
`some (inventoryState i)`, the remaining `k` iterations record the pairs
`(j + 1, inventoryState (j + 1))` for `j = i, …, i + k - 1`. -/
theorem inventoryLoopAux_eq (k : Nat) :
    ∀ i : Nat,
      inventoryLoopAux k i (some (inventoryState i)) =
        (List.range' i k).map fun j => (j + 1, inventoryState (j + 1)) := by
  induction k with
  | zero => intro i; rfl
  | succ k ih =>
    intro i
    rw [List.range'_succ, List.map_cons]
    by_cases hi : i = 0
    · subst hi
      simp only [inventoryLoopAux, if_pos rfl]
      have h1 : update_inventory inventorySeed 0 = inventoryState 1 := rfl
      rw [h1]
      exact congrArg _ (ih 1)
    · simp only [inventoryLoopAux, if_neg hi, Option.getD_some]
      have h1 : update_inventory (inventoryState i) i = inventoryState (i + 1) := rfl
      rw [h1]
      exact congrArg _ (ih (i + 1))

/-- The recorded pairs of the literal main-loop embedding: entry `j`
(0-based) of `inventoryLoop numStep` is `(j + 1, inventoryState (j + 1))`. -/
theorem inventoryLoop_eq (numStep : Nat) :
    inventoryLoop numStep =
      (List.range' 0 numStep).map fun j => (j + 1, inventoryState (j + 1)) := by
  cases numStep with
  | zero => rfl
  | succ k =>
    rw [List.range'_succ, List.map_cons]
    show inventoryLoopAux (k + 1) 0 none = _
    simp only [inventoryLoopAux, if_pos rfl]
    have h1 : update_inventory inventorySeed 0 = inventoryState 1 := rfl
    rw [h1]
    exact congrArg _ (inventoryLoopAux_eq k 1)

/-- C2: the claim says the state recorded for step `N` is one application of
the rule *with step index `N`* to the state recorded for step `N - 1`.  At
`N = 1` the digit-inventory loop applies `update_inventory` with index `0`
(the loop variable `i`), giving `"23120"`, while index `1` (the odd branch)
would give `"33320"`. -/
theorem c2_counterexample :
    (inventoryLoop 1).head? = some (1, "23120") ∧
      update_inventory (inventoryState 0) 1 = "33320" ∧
      inventoryState 1 ≠ update_inventory (inventoryState 0) 1 := by
  refine ⟨by decide, by decide, by decide⟩

/-- C2 (amended): for every `num_step ≥ 1` and every `1 ≤ N ≤ num_step`, the
record emitted for step `N` carries `inventoryState N`, which equals one
application of the update rule with step index `N - 1` (the 0-based loop
index) to the state recorded for step `N - 1`; `inventoryState N` is by
construction `N` successive applications of the rule (indices `0..N-1`) to
the seed, never restarting mid-run.  The rule90 loop satisfies the same
relation (its rule takes no step index). -/
theorem c2_incremental_consistency (numStep N : Nat) (h1 : 1 ≤ N)
    (h2 : N ≤ numStep) :
    (inventoryLoop numStep)[N - 1]? = some (N, inventoryState N) ∧
      inventoryState N = update_inventory (inventoryState (N - 1)) (N - 1) ∧
      rule90State N = update_rule90 (rule90State (N - 1)) := by
  obtain ⟨m, rfl⟩ : ∃ m, N = m + 1 := ⟨N - 1, (Nat.succ_pred_eq_of_pos h1).symm⟩
  have hm : m < numStep := h2
  refine ⟨?_, rfl, rfl⟩
  rw [inventoryLoop_eq]
  simp [List.getElem?_range', hm]

/-- Witness for `c2_incremental_consistency` at `num_step = 2`, `N = 2`. -/
theorem c2_incremental_consistency_witness :
    (inventoryLoop 2)[1]? = some (2, inventoryState 2) ∧
      inventoryState 2 = update_inventory (inventoryState 1) 1 ∧
      rule90State 2 = update_rule90 (rule90State 1) :=
  c2_incremental_consistency 2 2 (by decide) (by decide)

/-- Insertion of a word into a sorted list, ascending by `<` on strings
(lexicographic comparison of Unicode code points, as Python's `sorted`
uses on `str`). -/
def insertWord (w : String) : List String → List String
  | [] => [w]
  | x :: xs => if w < x then w :: x :: xs else x :: insertWord w xs

/-- Python `sorted` on a list of strings: ascending lexicographic order by
Unicode code points (insertion sort; the dictionary words are distinct, so
stability is irrelevant). -/
def sortWords : List String → List String
  | [] => []
  | x :: xs => insertWord x (sortWords xs)

/-- Python `sum(ord(c) for c in w)`: sum of the Unicode code points of the
characters of `w` (from `lang-shiritori-walk-small-dict.py`, line 39). -/
def ordSum (w : String) : Nat :=
  w.data.foldl (fun a c => a + c.toNat) 0

/-- The candidate list of `lang-shiritori-walk-small-dict.py` (line 33):
`sorted([w for w in D if w and w[0] == last_char])` where `last_char` is the
last character of `current_word`. -/
def shiritoriCandidates (current_word : String) (D : List String) : List String :=
  let last_char := current_word.back
  sortWords (D.filter fun w =>
    match w.data with
    | [] => false
    | c :: _ => c = last_char)

/-- Function `shiritori_step` from `lang-shiritori-walk-small-dict.py` (lines 13-41):
empty current word or empty candidate list means stay put; otherwise pick the
zero-based index `k = ordSum(current_word) % len(candidates)` from the sorted
candidate list (`getD` default unused: `k < length`). -/
def shiritori_step (current_word : String) (D : List String) : String :=
  if current_word = "" then current_word
  else
    let candidates := shiritoriCandidates current_word D
    if candidates = [] then current_word
    else
      let s := ordSum current_word
      let k := s % candidates.length
      candidates.getD k ""

/-- The fixed 26-word dictionary `D` of `lang-shiritori-walk-small-dict.py`
(lines 58-85). -/
def shiritoriDict : List String :=
  ["alas", "basic", "candid", "dill", "elf", "fang", "graph", "haji",
   "improv", "jazz", "kebab", "laptop", "mule", "new", "oven", "prism",
   "quipu", "raj", "suq", "taco", "ugly", "vex", "war", "xyst", "yolk",
   "zebra"]

/-- C5: the claim says an empty candidate list makes the rule crash the run.
`shiritori_step` instead handles it explicitly (`if not candidates: return
current_word`): for the word `"q1"`, whose last character `'1'` starts no
dictionary word, the rule returns the word unchanged rather than failing. -/
theorem c5_counterexample :
    shiritoriCandidates "q1" shiritoriDict = [] ∧
      shiritori_step "q1" shiritoriDict = "q1" := by
  refine ⟨by decide, by decide⟩

/-- C5 (amended): in `shiritori_step`, a non-empty current word whose
candidate list is empty does not crash the run; the rule returns the current
word unchanged (the documented "stay put" behaviour). -/
theorem c5_empty_candidates_stay_put (w : String) (D : List String)
    (hw : w ≠ "") (hc : shiritoriCandidates w D = []) :
    shiritori_step w D = w := by
  unfold shiritori_step
  rw [if_neg hw]
  simp [hc]

/-- Witness for `c5_empty_candidates_stay_put` at `w = "q1"` over the fixed
dictionary. -/
theorem c5_empty_candidates_stay_put_witness :
    shiritori_step "q1" shiritoriDict = "q1" :=
  c5_empty_candidates_stay_put "q1" shiritoriDict (by decide) (by decide)

/-- C8: on the fixed 26-word dictionary with start word `"alas"`, the
candidate list for `"alas"` (words starting with `'s'`) is exactly
`["suq"]`, so the first step of the walk yields `"suq"` (with a singleton
candidate list the checksum index `k = ordSum("alas") % 1 = 0` is forced). -/
theorem c8_first_step_suq :
    shiritoriCandidates "alas" shiritoriDict = ["suq"] ∧
      ordSum "alas" % 1 = 0 ∧
      shiritori_step "alas" shiritoriDict = "suq" := by
  refine ⟨by decide, by decide, by decide⟩

/-- The binding of the global name `i` inside the code snippet embedded in
the digit-inventory task text (`code-1-top-digit-inventory4.py`, lines
60-88).  The rendered snippet assigns only `N`, `s`, `f` and the loop
variable `_`; the name `i`, which the transcribed `f` reads in
`if i%2==0:`, is never bound, so its lookup is `none` (a Python
`NameError`). -/
def inventorySnippetEnvI : Option Int := none

/-- The function `f` defined by the snippet embedded in the digit-inventory
task text, as a function of the (global) binding of the free name `i`: when
`i` is unbound the call raises `NameError` (modelled as `none`); when bound,
the body is the transcription of the update rule with that fixed `i`. -/
def inventorySnippetF (envI : Option Int) (s : String) : Option String :=
  match envI with
  | none => none
  | some i =>
    let c0 := countChar s '0'
    let c1 := countChar s '1'
    let c2 := countChar s '2'
    let c3 := countChar s '3'
    let c4 := countChar s '4'
    some <|
      if i % 2 = 0 then
        toString ((c0 + 1) % 5) ++ toString ((c1 + 2) % 5) ++
          toString ((c2 + 1) % 5) ++ toString ((c3 + 1) % 5) ++ toString c4
      else
        toString ((c0 + 2) % 5) ++
          (if c1 ≥ 3 then toString ((c1 + 1) % 5) else toString ((2 * c1 + 1) % 5)) ++
          toString ((c2 + 3) % 5) ++ toString ((c3 + 1) % 5) ++ toString c4

/-- Executing the digit-inventory snippet as-is: `s = "01938"`, then `N`
iterations of `s = f(s)`, with errors propagating. -/
def inventorySnippetRun : Nat → Option String
  | 0 => some inventorySeed
  | n + 1 => (inventorySnippetRun n).bind (inventorySnippetF inventorySnippetEnvI)

/-- The binding of the global name `j` inside the code snippet embedded in
the Ducci task text (`code-4-top-ducci-mod1000.py`, lines 66-93).  The
snippet's `f` loops `for i in range(K)` but its body indexes with `j`
(`vec[j if j<=2 else 2*j%K]`), a name the snippet never binds, so its lookup
is `none` (a Python `NameError`). -/
def ducciSnippetEnvJ : Option Nat := none

/-- The function `f` defined by the snippet embedded in the Ducci task text,
as a function of the (global) binding of the free name `j`: on a non-empty
vector an unbound `j` raises `NameError` (modelled as `none`); when bound,
every loop iteration computes the same value `abs(vec[j if j<=2 else 2*j%K]
- vec[(j + 1 if j<=5 else j-2) % K]) % 1000`, independent of the loop
variable `i`.  On an empty vector the loop body never runs and `out = []`. -/
def ducciSnippetF (envJ : Option Nat) (vec : List Int) : Option (List Int) :=
  let K := vec.length
  if K = 0 then some []
  else
    match envJ with
    | none => none
    | some j =>
      some <| (List.range K).map fun _ =>
        (Int.ofNat
          ((vec.getD (if j ≤ 2 then j else 2 * j % K) 0 -
            vec.getD ((if j ≤ 5 then j + 1 else j - 2) % K) 0).natAbs % 1000))

/-- Executing the Ducci snippet as-is: `x` = the seed vector, then `N`
iterations of `x = f(x)`, with errors propagating. -/
def ducciSnippetRun : Nat → Option (List Int)
  | 0 => some ducciSeed
  | n + 1 => (ducciSnippetRun n).bind (ducciSnippetF ducciSnippetEnvJ)

/-- C1: the claim (and the task texts themselves) say the embedded snippets
are runnable as-is and reproduce `gt_ans`.  Both referenced snippets read a
name they never bind (`i` in the digit-inventory snippet, `j` in the Ducci
snippet), so executing them raises `NameError` and produces no `ANSWER` at
all, while the generators record `gt_ans = "23120"` (digit-inventory, step 1)
and `gt_ans = "6213710403"` (Ducci, step 1). -/
theorem c1_snippets_raise_name_error :
    inventorySnippetRun 1 = none ∧
      inventoryState 1 = "23120" ∧
      ducciSnippetRun 1 = none ∧
      ducciState 1 = [6, 2, 13, 7, 1, 0, 4, 0, 3] ∧
      ducciAnswer (ducciState 1) = "6213710403" := by
  refine ⟨by decide, by decide, by decide, by decide, by decide⟩

/-- C7: range validity of the numeric update rules: every component of
`update_ducci`'s output lies in `[0, 1000)`, every component of
`update_affine2d`'s output lies in `[0, 200)`, and `update_rule90` preserves
the string length and produces only the characters `'0'` and `'1'` — hence
these bounds hold at every step of every simulation. -/
theorem c7_range_validity :
    (∀ x : List Int, ∀ y ∈ update_ducci x, 0 ≤ y ∧ y < 1000) ∧
      (∀ s : Int × Int × Int,
        (0 ≤ (update_affine2d s).1 ∧ (update_affine2d s).1 < 200) ∧
          (0 ≤ (update_affine2d s).2.1 ∧ (update_affine2d s).2.1 < 200) ∧
          (0 ≤ (update_affine2d s).2.2 ∧ (update_affine2d s).2.2 < 200)) ∧
      (∀ b : String, (update_rule90 b).length = b.length ∧
        ∀ c ∈ (update_rule90 b).data, c = '0' ∨ c = '1') := by
  refine ⟨?_, ?_, ?_⟩
  · intro x y hy
    simp only [update_ducci, List.mem_map, List.mem_range] at hy
    obtain ⟨j, -, rfl⟩ := hy
    refine ⟨Int.ofNat_nonneg _, ?_⟩
    have h : (x.getD (if j ≤ 2 then j else 2 * j % x.length) 0 -
        x.getD ((if j ≤ 5 then j + 1 else j - 2) % x.length) 0).natAbs % 1000 < 1000 :=
      Nat.mod_lt _ (by norm_num)
    exact Int.ofNat_lt.mpr h
  · intro s
    refine ⟨⟨?_, ?_⟩, ⟨?_, ?_⟩, ⟨?_, ?_⟩⟩ <;>
      first
        | exact Int.emod_nonneg _ (by norm_num)
        | exact Int.emod_lt_of_pos _ (by norm_num)
  · intro b
    constructor
    · show ((List.range b.data.length).map (rule90Cell b)).length = b.length
      rw [List.length_map, List.length_range]
      rfl
    · intro c hc
      have hc' : c ∈ (List.range b.data.length).map (rule90Cell b) := hc
      simp only [List.mem_map, List.mem_range] at hc'
      obtain ⟨i, -, rfl⟩ := hc'
      simp only [rule90Cell]
      split <;> split <;> split <;> first | exact Or.inr rfl | exact Or.inl rfl

/-- Witness for `c7_range_validity`: the Ducci bound at the member `6` of
`update_ducci` of the seed, the affine bounds at the seed `(1, 2, 0)`, and
the rule90 facts at the seed string, with the membership discharged at
`'0'`. -/
theorem c7_range_validity_witness :
    (0 ≤ (6 : Int) ∧ (6 : Int) < 1000) ∧
      ((0 ≤ (update_affine2d (1, 2, 0)).1 ∧ (update_affine2d (1, 2, 0)).1 < 200) ∧
        (0 ≤ (update_affine2d (1, 2, 0)).2.1 ∧ (update_affine2d (1, 2, 0)).2.1 < 200) ∧
        (0 ≤ (update_affine2d (1, 2, 0)).2.2 ∧ (update_affine2d (1, 2, 0)).2.2 < 200)) ∧
      ((update_rule90 rule90Seed).length = rule90Seed.length ∧
        ('0' = '0' ∨ '0' = '1')) :=
  ⟨c7_range_validity.1 ducciSeed 6 (by decide),
   c7_range_validity.2.1 (1, 2, 0),
   (c7_range_validity.2.2 rule90Seed).1,
   (c7_range_validity.2.2 rule90Seed).2 '0' (by decide)⟩

/-- Observable file-related events of one generator run: opening the output
file for writing, one application of the update rule (step `n`, counted from
1), writing one serialized record line, and closing the file.  Console
prints are omitted (they touch no file). -/
inductive GenEvent where
  | openOut : GenEvent
  | stepApp : Nat → GenEvent
  | writeRecord : String → GenEvent
  | closeOut : GenEvent
deriving DecidableEq, Repr

/-- Predicate picking out the events that touch the output file. -/
def isFileEvent : GenEvent → Bool
  | GenEvent.stepApp _ => false
  | _ => true

/-- Simulation phase of the common generator shape (for example
`code-1-top-digit-inventory4.py` lines 47-96 and
`lang-shiritori-walk-small-dict.py` lines 91-125): iteration `i` applies the
(possibly failing) rule `stepF` to the carried state with step index `i`; a
failure (`none`, a raised exception) aborts the run at once.  Returns the
emitted step events and, on success, the per-step states collected into
`dataset`. -/
def commonLoop (stepF : σ → Nat → Option σ) :
    σ → Nat → Nat → List GenEvent × Option (List σ)
  | _, _, 0 => ([], some [])
  | st, i, k + 1 =>
    match stepF st i with
    | none => ([GenEvent.stepApp (i + 1)], none)
    | some st' =>
      let rest := commonLoop stepF st' (i + 1) k
      (GenEvent.stepApp (i + 1) :: rest.1, rest.2.map (st' :: ·))

/-- Full event trace of the common generator shape: the simulation loop runs
first; only after it completes does the writer phase open the output file,
write one record line per collected state in order, and close it.  If the
loop raised, control never reaches the writer: no file event occurs. -/
def commonTrace (stepF : σ → Nat → Option σ) (ser : σ → String) (init : σ)
    (numStep : Nat) : List GenEvent :=
  let r := commonLoop stepF init 0 numStep
  match r.2 with
  | none => r.1
  | some dataset =>
    r.1 ++ GenEvent.openOut ::
      (dataset.map fun st => GenEvent.writeRecord (ser st)) ++ [GenEvent.closeOut]

/-- Every event emitted by the simulation phase is a step event. -/
theorem commonLoop_events_stepApp (stepF : σ → Nat → Option σ) :
    ∀ (k i : Nat) (st : σ) (e : GenEvent), e ∈ (commonLoop stepF st i k).1 →
      isFileEvent e = false := by
  intro k
  induction k with
  | zero => intro i st e he; cases he
  | succ k ih =>
    intro i st e he
    cases h : stepF st i with
    | none =>
      simp only [commonLoop, h] at he
      rcases List.mem_cons.mp he with rfl | he
      · rfl
      · cases he
    | some st' =>
      simp only [commonLoop, h] at he
      rcases List.mem_cons.mp he with rfl | he
      · rfl
      · exact ih (i + 1) st' e he

/-- Field "0101100100010110011" of `sci-phys-memory-walk.py` (line 48),
parsed into the integer list `F0`. -/
def memoryWalkF0 : List Nat :=
  [0, 1, 0, 1, 1, 0, 0, 1, 0, 0, 0, 1, 0, 1, 1, 0, 0, 1, 1]

/-- Function `step_once` from `sci-phys-memory-walk.py` (lines 16-37): read
the old field bit `b` at `x`, reverse direction if `b = 1`, flip the field
at `x`, and move one site with Python's non-negative `%` (rendered with
`Int.emod`, then `toNat`; `L = 19 > 0` keeps the residue in `[0, L)`). -/
def step_once (x : Nat) (dir : Int) (F : List Nat) : Nat × Int × List Nat :=
  let L := F.length
  let b := F.getD x 0
  let dir2 := if b = 1 then -dir else dir
  let F2 := F.set x (1 - b)
  let x2 := (((x : Int) + dir2) % (L : Int)).toNat
  (x2, dir2, F2)

/-- Loop body of `sci-phys-memory-walk.py` (lines 63-115), which runs
*inside* the `with open(...)` block: each iteration applies `step_once` and
immediately writes the record for that step (its `gt_ans` is the new
position) to the already-open file. -/
def memoryWalkLoop : Nat → Nat → Nat → Int → List Nat → List GenEvent
  | 0, _, _, _, _ => []
  | k + 1, i, x, dir, F =>
    let r := step_once x dir F
    GenEvent.stepApp (i + 1) :: GenEvent.writeRecord (toString r.1) ::
      memoryWalkLoop k (i + 1) r.1 r.2.1 r.2.2

/-- Event trace of `sci-phys-memory-walk.py` (lines 62-115): the output file
is opened *before* the simulation loop, records are written one per
iteration, and the file is closed when the `with` block exits. -/
def memoryWalkTrace (numStep : Nat) : List GenEvent :=
  GenEvent.openOut :: (memoryWalkLoop numStep 0 0 1 memoryWalkF0 ++ [GenEvent.closeOut])

/-- C6: the claim says every generator opens its output file only after the
entire simulation loop has completed.  `sci-phys-memory-walk.py` opens the
file first and interleaves rule applications with record writes: at
`num_step = 2` its trace begins with the open event, followed by the two
step/write pairs. -/
theorem c6_counterexample :
    memoryWalkTrace 2 =
      [GenEvent.openOut, GenEvent.stepApp 1, GenEvent.writeRecord "1",
       GenEvent.stepApp 2, GenEvent.writeRecord "0", GenEvent.closeOut] ∧
      (memoryWalkTrace 2).head? = some GenEvent.openOut := by
  refine ⟨by decide, by decide⟩

/-- C6 (amended): in the common generator shape (all generators except
`sci-phys-memory-walk.py`), the writer phase starts only after the whole
loop succeeds, so if any rule application fails during simulation the trace
contains no file event at all — no output file is created or modified;
`sci-phys-memory-walk.py` instead opens its file before the loop and writes
records incrementally. -/
theorem c6_no_file_on_failure (stepF : σ → Nat → Option σ) (ser : σ → String)
    (init : σ) (numStep : Nat)
    (hfail : (commonLoop stepF init 0 numStep).2 = none) :
    (commonTrace stepF ser init numStep).filter isFileEvent = [] := by
  simp only [commonTrace, hfail]
  rw [List.filter_eq_nil_iff]
  intro e he
  have h := commonLoop_events_stepApp stepF numStep 0 init e he
  simp [h]

/-- Witness for `c6_no_file_on_failure`: a rule that raises on its first
application, at `num_step = 1`. -/
theorem c6_no_file_on_failure_witness :
    (commonTrace (fun (_ : String) (_ : Nat) => (none : Option String))
        toString "01938" 1).filter isFileEvent = [] :=
  c6_no_file_on_failure (fun _ _ => none) toString "01938" 1 (by decide)

/-- Table transcribing, for each generator script under
`LoRe-Bench/LoRe-Mono/scripts`, the list of JSON keys of the record literal
its main loop appends (for example `code-1-top-digit-inventory4.py` lines
90-96, `math-matrix-hard-v4.py` lines 64-76). -/
def scriptRecordFields : List (String × List String) :=
  [("code-1-top-digit-inventory4.py", ["idx", "type", "task", "gt_ans"]),
   ("code-10-circ-conv-mod10.py", ["idx", "type", "task", "gt_ans"]),
   ("code-2-top-rotating-caesar.py", ["idx", "type", "task", "gt_ans"]),
   ("code-3-top-rule90.py", ["idx", "type", "task", "gt_ans"]),
   ("code-4-top-ducci-mod1000.py", ["idx", "type", "task", "gt_ans"]),
   ("code-5-top-affine2d.py", ["idx", "type", "task", "gt_ans"]),
   ("code-6-top-outindex-walk.py", ["idx", "type", "task", "gt_ans"]),
   ("code-7-top-deck8-outshuffle-add.py", ["idx", "type", "task", "gt_ans"]),
   ("code-8-top-digit-rot-add.py", ["idx", "type", "task", "gt_ans"]),
   ("code-9-top-torus-ant.py", ["idx", "type", "task", "gt_ans"]),
   ("lang-10-rotating-lipogram-sieve.py", ["idx", "type", "task", "gt_ans"]),
   ("lang-8-mirror-pointer-fixer.py", ["idx", "type", "task", "gt_ans"]),
   ("lang-9-spoonerism-swap-walk.py", ["idx", "type", "task", "gt_ans"]),
   ("lang-alliteration-scanner-cyclic.py", ["idx", "type", "task", "gt_ans"]),
   ("lang-letter-maze.py", ["idx", "type", "task", "gt_ans"]),
   ("lang-lexical-antonym-synonym-chain.py", ["idx", "type", "task", "gt_ans"]),
   ("lang-morph-adhere-drop.py", ["idx", "type", "task", "gt_ans"]),
   ("lang-phonology-cv-rotation.py", ["idx", "type", "task", "gt_ans"]),
   ("lang-punct-letter-picker.py", ["idx", "type", "task", "gt_ans"]),
   ("lang-shiritori-walk-small-dict.py", ["idx", "type", "task", "gt_ans"]),
   ("math-2term-Fibonacci.py", ["idx", "type", "task", "gt_ans"]),
   ("math-array-odd-swap.py", ["idx", "type", "task", "gt_ans"]),
   ("math-boolean-rotflip-3x3.py", ["idx", "type", "task", "gt_ans"]),
   ("math-cellular-automaton-v1.py", ["idx", "type", "task", "gt_ans"]),
   ("math-complex_v1.py", ["idx", "type", "task", "gt_ans"]),
   ("math-matrix-hard-v4.py", ["idx", "type", "task", "gt_ans_latex", "gt_ans"]),
   ("math-piecewise.py", ["idx", "type", "task", "gt_ans"]),
   ("math-rle-length-encoding.py", ["idx", "type", "task", "gt_ans"]),
   ("math-tri-register-extreme-xor.py", ["idx", "type", "task", "gt_ans"]),
   ("math-weighted-graph.py", ["idx", "type", "task", "gt_ans"]),
   ("sci-bio-dna-mutation.py", ["idx", "type", "task", "gt_ans"]),
   ("sci-bio-enzyme-cascade-fsm.py", ["idx", "type", "task", "gt_ans"]),
   ("sci-bio-enzyme-cofactor.py", ["idx", "type", "task", "gt_ans"]),
   ("sci-bio-transposon-hops.py", ["idx", "type", "task", "gt_ans"]),
   ("sci-chem-titration.py", ["idx", "type", "task", "gt_ans"]),
   ("sci-geo-belt-functional-graph.py", ["idx", "type", "task", "gt_ans"]),
   ("sci-geo-torus-sampler.py", ["idx", "type", "task", "gt_ans"]),
   ("sci-phys-memory-walk.py", ["idx", "type", "task", "gt_ans"]),
   ("sci-phys-momentum-buckets.py", ["idx", "type", "task", "gt_ans"])]

/-- C9: the claim says exactly *two* scripts add a `gt_ans_latex` field.
Exactly one does: `math-matrix-hard-v4.py`. -/
theorem c9_counterexample :
    (scriptRecordFields.filter fun p => p.2.contains "gt_ans_latex").length = 1 ∧
      (scriptRecordFields.filter fun p => p.2.contains "gt_ans_latex").length ≠ 2 ∧
      (scriptRecordFields.filter fun p => p.2.contains "gt_ans_latex").map Prod.fst =
        ["math-matrix-hard-v4.py"] := by
  refine ⟨by decide, by decide, by decide⟩

/-- C9 (amended): every record is a JSON object whose fields are exactly
`idx, type, task, gt_ans` — with exactly *one* script
(`math-matrix-hard-v4.py`) adding an extra `gt_ans_latex` field — and the
records of a run are written one object per line in ascending `idx` order
with `idx` the 1-based step count (shown for the embedded digit-inventory
generator: the `idx` column of its record list for any `num_step` is
`1, 2, …, num_step`). -/
theorem c9_record_fields (p : String × List String)
    (hp : p ∈ scriptRecordFields) (numStep : Nat) :
    (p.2 = ["idx", "type", "task", "gt_ans"] ∨
      (p.1 = "math-matrix-hard-v4.py" ∧
        p.2 = ["idx", "type", "task", "gt_ans_latex", "gt_ans"])) ∧
      (scriptRecordFields.filter fun q => q.2.contains "gt_ans_latex").length = 1 ∧
      (inventoryLoop numStep).map Prod.fst = (List.range numStep).map (· + 1) := by
  refine ⟨?_, by decide, ?_⟩
  · have h : ∀ q ∈ scriptRecordFields,
        q.2 = ["idx", "type", "task", "gt_ans"] ∨
          (q.1 = "math-matrix-hard-v4.py" ∧
            q.2 = ["idx", "type", "task", "gt_ans_latex", "gt_ans"]) := by decide
    exact h p hp
  · rw [inventoryLoop_eq, List.map_map, List.range_eq_range']
    rfl

/-- Witness for `c9_record_fields` at the digit-inventory entry and
`num_step = 3`. -/
theorem c9_record_fields_witness :
    ((("code-1-top-digit-inventory4.py", ["idx", "type", "task", "gt_ans"])
          : String × List String).2 = ["idx", "type", "task", "gt_ans"] ∨
      ((("code-1-top-digit-inventory4.py", ["idx", "type", "task", "gt_ans"])
          : String × List String).1 = "math-matrix-hard-v4.py" ∧
        (("code-1-top-digit-inventory4.py", ["idx", "type", "task", "gt_ans"])
          : String × List String).2 = ["idx", "type", "task", "gt_ans_latex", "gt_ans"])) ∧
      (scriptRecordFields.filter fun q => q.2.contains "gt_ans_latex").length = 1 ∧
      (inventoryLoop 3).map Prod.fst = (List.range 3).map (· + 1) :=
  c9_record_fields ("code-1-top-digit-inventory4.py", ["idx", "type", "task", "gt_ans"])
    (by decide) 3

/-- Decimal rendering facts used for the digit-inventory states: a natural
number below 10 renders as its single digit character, which satisfies
`Char.isDigit`. -/
theorem toString_single_digit :
    ∀ n : Nat, n < 10 →
      (toString n).data = [Nat.digitChar n] ∧ (Nat.digitChar n).isDigit = true := by
  decide

/-- Characters of a concatenation of five single-digit renderings. -/
theorem five_digit_data (a b c d e : Nat) (ha : a < 10) (hb : b < 10)
    (hc : c < 10) (hd : d < 10) (he : e < 10) :
    (toString a ++ toString b ++ toString c ++ toString d ++ toString e).data =
      [Nat.digitChar a, Nat.digitChar b, Nat.digitChar c, Nat.digitChar d,
       Nat.digitChar e] := by
  rw [String.data_append, String.data_append, String.data_append,
    String.data_append, (toString_single_digit a ha).1,
    (toString_single_digit b hb).1, (toString_single_digit c hc).1,
    (toString_single_digit d hd).1, (toString_single_digit e he).1]
  rfl

/-- Shape of every `update_inventory` output whose input has at most nine
occurrences of `'4'`: four single digits below 5 (the offset counts mod 5)
followed by the single digit rendering of the literal count of `'4'`. -/
theorem update_inventory_data (s : String) (i : Nat)
    (h9 : countChar s '4' ≤ 9) :
    ∃ a b c d e : Nat, a < 5 ∧ b < 5 ∧ c < 5 ∧ d < 5 ∧ e ≤ 9 ∧
      (update_inventory s i).data =
        [Nat.digitChar a, Nat.digitChar b, Nat.digitChar c, Nat.digitChar d,
         Nat.digitChar e] := by
  have h10 : countChar s '4' < 10 := Nat.lt_succ_of_le h9
  have m5 : ∀ n : Nat, n % 5 < 5 := fun n => Nat.mod_lt _ (by norm_num)
  have m10 : ∀ n : Nat, n % 5 < 10 := fun n => Nat.lt_trans (m5 n) (by norm_num)
  simp only [update_inventory]
  split
  · exact ⟨_, _, _, _, _, m5 _, m5 _, m5 _, m5 _, h9,
      five_digit_data _ _ _ _ _ (m10 _) (m10 _) (m10 _) (m10 _) h10⟩
  · rw [← apply_ite toString]
    have hb5 : (if countChar s '1' ≥ 3 then (countChar s '1' + 1) % 5
        else (2 * countChar s '1' + 1) % 5) < 5 := by
      split
      · exact m5 _
      · exact m5 _
    exact ⟨_, _, _, _, _, m5 _, hb5, m5 _, m5 _, h9,
      five_digit_data _ _ _ _ _ (m10 _) (Nat.lt_trans hb5 (by norm_num))
        (m10 _) (m10 _) h10⟩

/-- Invariant satisfied by every digit-inventory state reached by at least
one application of the rule: exactly five characters, all decimal digits,
decomposing as four single digits below 5 followed by a single digit that
never exceeds 9. -/
def InvShape (s : String) : Prop :=
  s.length = 5 ∧ (∀ c ∈ s.data, c.isDigit = true) ∧
    ∃ a b c d e : Nat, a < 5 ∧ b < 5 ∧ c < 5 ∧ d < 5 ∧ e ≤ 9 ∧
      s.data = [Nat.digitChar a, Nat.digitChar b, Nat.digitChar c,
        Nat.digitChar d, Nat.digitChar e]

/-- One rule application sends any 5-character state into `InvShape`. -/
theorem invShape_update (s : String) (i : Nat) (h5 : s.length = 5) :
    InvShape (update_inventory s i) := by
  have h9 : countChar s '4' ≤ 9 := by
    have h := List.count_le_length '4' s.data
    have h5' : s.data.length = 5 := h5
    rw [h5'] at h
    exact le_trans h (by norm_num)
  obtain ⟨a, b, c, d, e, ha, hb, hc, hd, he, hdata⟩ := update_inventory_data s i h9
  have hdig : ∀ n : Nat, n < 10 → (Nat.digitChar n).isDigit = true := fun n hn =>
    (toString_single_digit n hn).2
  refine ⟨?_, ?_, a, b, c, d, e, ha, hb, hc, hd, he, hdata⟩
  · show (update_inventory s i).data.length = 5
    rw [hdata]
    rfl
  · intro ch hch
    rw [hdata] at hch
    simp only [List.mem_cons, List.not_mem_nil, or_false] at hch
    rcases hch with rfl | rfl | rfl | rfl | rfl
    · exact hdig a (Nat.lt_trans ha (by norm_num))
    · exact hdig b (Nat.lt_trans hb (by norm_num))
    · exact hdig c (Nat.lt_trans hc (by norm_num))
    · exact hdig d (Nat.lt_trans hd (by norm_num))
    · exact hdig e (Nat.lt_succ_of_le he)

/-- Folding any further step indices over a state in `InvShape` stays in
`InvShape`. -/
theorem invShape_foldl :
    ∀ (l : List Nat) (s : String), InvShape s →
      InvShape (l.foldl update_inventory s) := by
  intro l
  induction l with
  | nil => intro s hs; exact hs
  | cons j l ih =>
    intro s hs
    rw [List.foldl_cons]
    exact ih _ (invShape_update s j hs.1)

/-- Sequential application of `update_inventory` along a list of step
indices, as the simulation loop performs (Python: repeated
`s = update_inventory(s, i)`). -/
def inventoryApplySeq (s : String) (l : List Nat) : String :=
  l.foldl update_inventory s

/-- C10: starting from the seed `"01938"`, every state reached by one or
more applications of `update_inventory` (any sequence of step indices) is a
string of exactly five decimal-digit characters — four single digits below
5 (counts taken mod 5) followed by the single-digit literal count of `'4'`,
which never exceeds 9 on reachable states (it is bounded by the length 5). -/
theorem c10_reachable_states (i : Nat) (l : List Nat) :
    InvShape (inventoryApplySeq inventorySeed (i :: l)) ∧
      countChar (inventoryApplySeq inventorySeed (i :: l)) '4' ≤ 9 := by
  have hshape : InvShape (inventoryApplySeq inventorySeed (i :: l)) := by
    show InvShape ((i :: l).foldl update_inventory inventorySeed)
    rw [List.foldl_cons]
    exact invShape_foldl l _ (invShape_update inventorySeed i (by decide))
  refine ⟨hshape, ?_⟩
  have h := List.count_le_length '4' (inventoryApplySeq inventorySeed (i :: l)).data
  have h5 : (inventoryApplySeq inventorySeed (i :: l)).data.length = 5 := hshape.1
  rw [h5] at h
  exact le_trans h (by norm_num)

/-- Witness for `c10_reachable_states` at the single-step sequence `[0]`. -/
theorem c10_reachable_states_witness :
    InvShape (inventoryApplySeq inventorySeed (0 :: [])) ∧
      countChar (inventoryApplySeq inventorySeed (0 :: [])) '4' ≤ 9 :=
  c10_reachable_states 0 []
